import Mathlib

/-!
Verification of the sentinel-backend submission/webhook core.

The definitions below are a shallow embedding of the JavaScript sources:
* `src/models/Submission.js`, `src/models/Report.js` (mongoose schemas),
* `src/middleware/validate.js` (`webhookSchema`, a zod schema),
* `src/middleware/verifyWebhookSignature.js`,
* `src/services/report.service.js` (`ReportService.createReport`),
* `src/services/sse.service.js` (`SSEService`),
* `src/controllers/webhooks.controller.js` (`handleAnalysisWebhook`),
* `src/controllers/submissions.controller.js` (event order of the handlers).

JavaScript numbers are modelled as rationals, identifiers as naturals,
optional fields as `Option`, the mongoose collections as lists, and each
request handler as a pure function from (database, payload) to
(HTTP status code, database, emitted SSE events).
-/

namespace Sentinel

/-- Channels accepted by the submission schemas (`Submission.js` `channel` enum). -/
inductive Channel
  | sms | email | chat | image | video | document | audio
deriving DecidableEq, Repr

/-- Every status string the backend ever assigns to a submission.  Only the
seven listed in `submissionStatusEnum` are legal for a validating save;
the others occur as in-memory assignments in the controllers. -/
inductive Status
  | SUBMITTED | UPLOADING | UPLOADED | DISPATCHED | QUEUED | PROCESSING
  | ANALYSIS_STARTED | ANALYSIS_UPDATE | REPORT_READY | COMPLETED | ERROR
deriving DecidableEq, Repr

/-- The `status` enum of `submissionSchema` in `Submission.js`:
SUBMITTED, UPLOADING, UPLOADED, DISPATCHED, ANALYSIS_STARTED, REPORT_READY, ERROR. -/
def submissionStatusEnum : List Status :=
  [.SUBMITTED, .UPLOADING, .UPLOADED, .DISPATCHED, .ANALYSIS_STARTED, .REPORT_READY, .ERROR]

/-- One entry of `timestampSchema` in `Report.js` / `timestamps` in the zod
`webhookSchema`: `start` and `end` are required numbers, `label` optional.
The source field `end` is a Lean keyword, so it is called `stop` here.
Neither schema constrains `start` against `stop`. -/
structure Segment where
  start : Rat
  stop : Rat
  label : Option String
deriving DecidableEq, Repr

/-- A document of the `Submission` mongoose model (`Submission.js`).
`attachments` is irrelevant to the verified properties and omitted;
the schema has no `report` path. -/
structure Submission where
  id : Nat
  userId : Nat
  channel : Channel
  contentText : Option String
  status : Status
  lastError : Option String
deriving DecidableEq, Repr

/-- A stored document of the `Report` mongoose model (`Report.js`). -/
structure Report where
  id : Nat
  submissionId : Nat
  suspicious : Bool
  riskScore : Rat
  reasons : List String
  timestamps : List Segment
  raw : Option String
deriving DecidableEq, Repr

/-- The `reportData` object passed to `ReportService.createReport`:
fields copied from a validated webhook payload, so `suspicious`,
`riskScore`, `reasons` and `timestamps` may be absent. -/
structure ReportData where
  submissionId : Nat
  suspicious : Option Bool
  riskScore : Option Rat
  reasons : Option (List String)
  timestamps : Option (List Segment)
  raw : Option String
deriving DecidableEq, Repr

/-- Mongoose validation of a report document (`Report.js`): `suspicious` and
`riskScore` are required, `riskScore` must lie in `[0, 1]`; `reasons` and
`timestamps` default to `[]`.  There is no validator relating the `start` of a segment to its `stop`. -/
def reportOfData (id : Nat) (rd : ReportData) : Option Report :=
  match rd.suspicious, rd.riskScore with
  | some s, some r =>
    if 0 ≤ r ∧ r ≤ 1 then
      some { id := id, submissionId := rd.submissionId, suspicious := s, riskScore := r,
             reasons := rd.reasons.getD [], timestamps := rd.timestamps.getD [], raw := rd.raw }
    else none
  | _, _ => none

/-- The report document `reportOfData` builds from validated data; named so
proofs can speak about it without repeating the record literal. -/
def mkReport (n : Nat) (rd : ReportData) (b : Bool) (r : Rat) : Report :=
  { id := n, submissionId := rd.submissionId, suspicious := b, riskScore := r,
    reasons := rd.reasons.getD [], timestamps := rd.timestamps.getD [], raw := rd.raw }

/-- Embedding of `ReportService.createReport` (`report.service.js`): look up an existing
report by `submissionId`; update it in place if found, otherwise insert a
new document; any storage/validation failure is rethrown as
`Failed to create report`. -/
def createReport (reports : List Report) (nextId : Nat) (rd : ReportData) :
    Except String (Report × List Report) :=
  match reports.find? (fun rep => rep.submissionId == rd.submissionId) with
  | some existing =>
    match reportOfData existing.id rd with
    | some updated =>
      .ok (updated, reports.map (fun rep => if rep.id == existing.id then updated else rep))
    | none => .error "Failed to create report"
  | none =>
    match reportOfData nextId rd with
    | some rep => .ok (rep, reports ++ [rep])
    | none => .error "Failed to create report"

/-- The four status strings the zod `webhookSchema` accepts. -/
inductive WebhookStatus
  | ANALYSIS_STARTED | ANALYSIS_UPDATE | REPORT_READY | ERROR
deriving DecidableEq, Repr

/-- The controller assigns the webhook status string directly to the
submission (`submission.status = validated.status`). -/
def WebhookStatus.toStatus : WebhookStatus → Status
  | .ANALYSIS_STARTED => .ANALYSIS_STARTED
  | .ANALYSIS_UPDATE => .ANALYSIS_UPDATE
  | .REPORT_READY => .REPORT_READY
  | .ERROR => .ERROR

/-- A structurally well-typed webhook request body (`validate.js`
`webhookSchema` field list). -/
structure WebhookBody where
  submissionId : Nat
  status : WebhookStatus
  suspicious : Option Bool
  riskScore : Option Rat
  reasons : Option (List String)
  timestamps : Option (List Segment)
  progress : Option Rat
  note : Option String
  raw : Option String
deriving DecidableEq, Repr

/-- The zod refinement on `webhookSchema`: `REPORT_READY` requires both
`suspicious` and `riskScore` to be present. -/
def webhookRefine (b : WebhookBody) : Bool :=
  match b.status with
  | .REPORT_READY => b.suspicious.isSome && b.riskScore.isSome
  | _ => true

/-- Embedding of `webhookSchema.parse`: bounds checks (`riskScore` in `[0,1]`, `progress`
in `[0,100]`) plus the `REPORT_READY` refinement; a failure raises a
`ZodError`. -/
def webhookParse (b : WebhookBody) : Except String WebhookBody :=
  let riskOk := match b.riskScore with
    | some r => decide (0 ≤ r ∧ r ≤ 1)
    | none => true
  let progressOk := match b.progress with
    | some p => decide (0 ≤ p ∧ p ≤ 100)
    | none => true
  if riskOk && progressOk && webhookRefine b then .ok b else .error "ZodError"

/-- The `maxlength: 2000` validator on `contentText` (`Submission.js`). -/
def contentOk (s : Submission) : Bool :=
  match s.contentText with
  | some t => decide (t.length ≤ 2000)
  | none => true

/-- Mongoose document validation for a submission (`Submission.js`): the
status must be in the schema enum and `contentText` within `maxlength`. -/
def submissionValid (s : Submission) : Bool :=
  decide (s.status ∈ submissionStatusEnum) && contentOk s

/-- Embedding of `submission.save()` with validation: replaces the stored document with
the mutated one, or raises a mongoose `ValidationError`. -/
def saveSubmission (subs : List Submission) (s : Submission) :
    Except String (List Submission) :=
  if submissionValid s then
    .ok (subs.map (fun x => if x.id == s.id then s else x))
  else .error "ValidationError"

/-- The persistent state touched by the webhook path. -/
structure DB where
  submissions : List Submission
  reports : List Report
deriving DecidableEq, Repr

/-- Result of one webhook request: HTTP status code, database afterwards,
and SSE events sent, as `(userId, eventType)` pairs. -/
structure WebhookOutcome where
  code : Nat
  db : DB
  events : List (Nat × String)
deriving DecidableEq, Repr

/-- JavaScript truthiness of the optional `note` string
(`validated.status === "ERROR" && validated.note`). -/
def truthy : Option String → Bool
  | some s => !(s == "")
  | none => false

/-- Shallow embedding of `handleAnalysisWebhook`
(`webhooks.controller.js`): parse the body with `webhookSchema` (a
`ZodError` yields 400), look up the submission (missing yields 404), assign
`validated.status` to `submission.status` unconditionally, set `lastError`
from a truthy `note` only for `ERROR`, save (a save failure is caught by
the generic handler and yields 500), then branch on the status to upsert
the report and emit the SSE event.  `nextReportId` stands for the identifier
the store would assign to a freshly inserted report. -/
def handleAnalysisWebhook (db : DB) (nextReportId : Nat) (body : WebhookBody) :
    WebhookOutcome :=
  match webhookParse body with
  | .error _ => ⟨400, db, []⟩
  | .ok v =>
    match db.submissions.find? (fun s => s.id == v.submissionId) with
    | none => ⟨404, db, []⟩
    | some sub =>
      let sub' : Submission :=
        { sub with
          status := v.status.toStatus
          lastError := if v.status == .ERROR && truthy v.note then v.note else sub.lastError }
      match saveSubmission db.submissions sub' with
      | .error _ => ⟨500, db, []⟩
      | .ok subs' =>
        let db1 : DB := ⟨subs', db.reports⟩
        match v.status with
        | .ANALYSIS_STARTED => ⟨200, db1, [(sub.userId, "analysis_started")]⟩
        | .ANALYSIS_UPDATE => ⟨200, db1, [(sub.userId, "analysis_update")]⟩
        | .REPORT_READY =>
          match createReport db1.reports nextReportId
              { submissionId := sub.id, suspicious := v.suspicious, riskScore := v.riskScore,
                reasons := v.reasons, timestamps := v.timestamps, raw := v.raw } with
          | .error _ => ⟨500, db1, []⟩
          | .ok (_, reports') => ⟨200, ⟨subs', reports'⟩, [(sub.userId, "report_ready")]⟩
        | .ERROR => ⟨200, db1, [(sub.userId, "error")]⟩

/-- Current status of the submission with the given id. -/
def statusOf (db : DB) (sid : Nat) : Option Status :=
  (db.submissions.find? (fun s => s.id == sid)).map (fun s => s.status)

/-- Current `lastError` of the submission with the given id. -/
def lastErrorOf (db : DB) (sid : Nat) : Option (Option String) :=
  (db.submissions.find? (fun s => s.id == sid)).map (fun s => s.lastError)

/-- All stored reports referencing the given submission. -/
def reportsFor (db : DB) (sid : Nat) : List Report :=
  db.reports.filter (fun r => r.submissionId == sid)

/-! ### SSE connection registry (`sse.service.js`)

`SSEService.clients` is a `Map` from `userId` to a `Set` of response
objects.  A response object is modelled as a `Sink` with an identity and a
flag saying whether `res.write` throws on it. -/

/-- One open SSE response object. -/
structure Sink where
  sid : Nat
  failing : Bool
deriving DecidableEq, Repr

/-- The `clients` map of `SSEService`, as an association list. -/
abbrev Registry := List (Nat × List Sink)

/-- Embedding of `this.clients.get(userId)`. -/
def getClients (reg : Registry) (uid : Nat) : Option (List Sink) :=
  reg.lookup uid

/-- The sinks currently registered for a user (empty when the map has no
entry — an absent entry and an empty set are observationally the same for
`sendToUser`). -/
def sinksOf (reg : Registry) (uid : Nat) : List Sink :=
  (reg.lookup uid).getD []

/-- Embedding of `SSEService.removeClient`: delete the response from the set of the user and
drop the map entry once the set is empty. -/
def removeClient (reg : Registry) (uid : Nat) (s : Sink) : Registry :=
  match reg.lookup uid with
  | none => reg
  | some sinks =>
    let sinks' := sinks.filter (fun x => x != s)
    if sinks'.isEmpty then reg.filter (fun e => e.1 != uid)
    else reg.map (fun e => if e.1 = uid then (uid, sinks') else e)

/-- The SSE frame `SSEService.sendToUser` writes:
`event: <event>\ndata: <json>\n\n` (the payload arrives here already
serialized). -/
def sseMessage (event data : String) : String :=
  "event: " ++ event ++ "\ndata: " ++ data ++ "\n\n"

/-- The `userClients.forEach` loop inside `sendToUser`: try to write the
message to each sink; a throwing write removes that sink via
`removeClient`.  Returns the final registry and the successful writes in
order, as `(sink id, message)` pairs. -/
def writeAll (uid : Nat) (msg : String) : Registry → List Sink → Registry × List (Nat × String)
  | reg, [] => (reg, [])
  | reg, s :: rest =>
    if s.failing then
      writeAll uid msg (removeClient reg uid s) rest
    else
      let next := writeAll uid msg reg rest
      (next.1, (s.sid, msg) :: next.2)

/-- Embedding of `SSEService.sendToUser(userId, event, data)`: an absent map entry
returns immediately; otherwise iterate over the sinks of the user. -/
def sendToUser (reg : Registry) (uid : Nat) (event data : String) :
    Registry × List (Nat × String) :=
  match reg.lookup uid with
  | none => (reg, [])
  | some sinks => writeAll uid (sseMessage event data) reg sinks

/-! ### Webhook signature verification (`verifyWebhookSignature.js`,
`CryptoService` in the services file)

The middleware computes `hmacSha256Hex(secret, JSON.stringify(req.body))`
and compares it with `===` against the header value with its `sha256=` tag
removed.  The HMAC itself is an external primitive; the middleware is
parameterised over the hex-digest function, which is all the verified
properties need. -/

/-- JavaScript `String.prototype.replace` with a string pattern: replace
the first occurrence only. -/
def listReplaceFirst : List Char → List Char → List Char → List Char
  | [], _, _ => []
  | c :: rest, pat, repl =>
    if (c :: rest).take pat.length = pat then repl ++ (c :: rest).drop pat.length
    else c :: listReplaceFirst rest pat repl

/-- Embedding of `signature.replace("sha256=", "")`. -/
def stripSigTag (sig : String) : String :=
  ⟨listReplaceFirst sig.data "sha256=".data []⟩

/-- Outcome of the signature middleware: 401 for a missing header, 401 for
a mismatch, otherwise `next()`. -/
inductive AuthResult
  | missing | invalid | authorized
deriving DecidableEq, Repr

/-- Embedding of `verifyWebhookSignature`, parameterised over the HMAC hex-digest
function applied to the serialized body. -/
def verifyWebhookSignatureWith (hmacHex : String → String) (body : String)
    (sigHeader : Option String) : AuthResult :=
  match sigHeader with
  | none => .missing
  | some signature =>
    let hexDigest := stripSigTag signature
    let calculatedDigest := hmacHex body
    if calculatedDigest = hexDigest then .authorized else .invalid

/-- Cost model of the short-circuiting string equality that the `===`
comparison of the middleware performs: the number of character comparisons executed
before the result is decided. -/
def eqCost : List Char → List Char → Nat
  | [], _ => 0
  | _ :: _, [] => 0
  | a :: as, b :: bs => 1 + (if a = b then eqCost as bs else 0)

/-- Comparison cost of the digest comparison on two strings. -/
def compareCost (a b : String) : Nat :=
  eqCost a.data b.data

/-! ### Effect order of the submission handlers
(`submissions.controller.js`)

The two submit handlers are embedded as the sequence of effectful calls
they perform, in program order.  `persistFailed st` marks a
`submission.save()` that raises a mongoose `ValidationError` because `st`
is outside the schema enum; JavaScript control then continues in the
enclosing `catch`. -/

/-- One effectful step of a submit handler. -/
inductive Action
  | createRecord (st : Status)
  | persist (st : Status)
  | persistNoValidate (st : Status)
  | persistFailed (st : Status)
  | s3Upload
  | signUrl
  | sse (event : String)
  | respond (code : Nat)
  | classify (api : String)
  | saveReport
deriving DecidableEq, Repr

/-- Effect order of `handleTextSubmission`, by outcome of the awaited
`aiService.analyzeText` call.  On AI success the code sets
`status = "COMPLETED"` and saves; `COMPLETED` is outside the schema enum,
the save throws, and the inner `catch (aiError)` takes over exactly as for
an AI failure: `status = "QUEUED"`, save with `validateBeforeSave: false`,
`error` SSE, then the `201` response. -/
def handleTextSubmissionTrace (aiOk : Bool) : List Action :=
  [.createRecord .SUBMITTED, .sse "submission_created", .sse "analysis_started",
   .classify "analyzeText"] ++
  (if aiOk then
    [.saveReport, .persistFailed .COMPLETED,
     .persistNoValidate .QUEUED, .sse "error", .respond 201]
   else
    [.persistNoValidate .QUEUED, .sse "error", .respond 201])

/-- Effect order of `handleFileSubmission`, by outcome of the S3 upload and
of the `aiService.analyzeFile` call.  On upload success the `201` response
is sent and only then the detached async block runs the classifier; on AI
success the `COMPLETED` save throws and the `catch` of the block persists
`ERROR` without validation. -/
def handleFileSubmissionTrace (uploadOk aiOk : Bool) : List Action :=
  [.createRecord .UPLOADING, .s3Upload] ++
  (if uploadOk then
    [.persist .UPLOADED, .sse "submission_created", .respond 201,
     .signUrl, .sse "analysis_started", .classify "analyzeFile"] ++
    (if aiOk then
      [.saveReport, .persistFailed .COMPLETED, .persistNoValidate .ERROR, .sse "error"]
     else
      [.persistNoValidate .ERROR, .sse "error"])
   else
    [.persistNoValidate .ERROR, .sse "error", .respond 500])

/-- Recognises the external classifier call in a trace. -/
def isClassify : Action → Bool
  | .classify _ => true
  | _ => false

/-- Recognises the HTTP response in a trace. -/
def isRespond : Action → Bool
  | .respond _ => true
  | _ => false

/-- The error branch of the S3 upload block in `handleFileSubmission`:
`status = "ERROR"`, `lastError = uploadErr?.message || "S3 upload failed"`.
`jsOr` is JavaScript `||` on an optional string. -/
def jsOr (m : Option String) (fallback : String) : String :=
  match m with
  | some s => if s = "" then fallback else s
  | none => fallback

/-- Submission update performed by the upload-failure branch of
`handleFileSubmission`. -/
def uploadFailUpdate (sub : Submission) (uploadErrMsg : Option String) : Submission :=
  { sub with status := .ERROR, lastError := some (jsOr uploadErrMsg "S3 upload failed") }

/-- Submission update performed by the `catch (aiErr)` branch of the
detached analysis block in `handleFileSubmission`. -/
def aiFileFailUpdate (sub : Submission) (aiErrMsg : Option String) : Submission :=
  { sub with status := .ERROR,
             lastError := some (jsOr aiErrMsg "Failed to analyze file with AI service") }

/-! ### Concrete instances used by counterexamples and witnesses -/

/-- Concrete record already in the terminal-success state REPORT_READY. -/
def subStaleCe : Submission := ⟨1, 7, .email, none, .REPORT_READY, none⟩

/-- Database holding only `subStaleCe`. -/
def dbStaleCe : DB := ⟨[subStaleCe], []⟩

/-- A stale ANALYSIS_STARTED webhook for submission 1. -/
def bodyStaleCe : WebhookBody := ⟨1, .ANALYSIS_STARTED, none, none, none, none, none, none, none⟩

/-- Concrete in-flight submission with content, used as witness input. -/
def subUpdW : Submission := ⟨2, 9, .sms, some "hello", .ANALYSIS_STARTED, none⟩

/-- Database holding only `subUpdW`. -/
def dbUpdW : DB := ⟨[subUpdW], []⟩

/-- An ANALYSIS_UPDATE webhook for submission 2. -/
def bodyUpdW : WebhookBody := ⟨2, .ANALYSIS_UPDATE, none, none, none, none, some 50, some "halfway", none⟩

/-- Concrete in-flight submission in ANALYSIS_STARTED. -/
def subRRCe : Submission := ⟨1, 7, .email, none, .ANALYSIS_STARTED, none⟩

/-- Database holding only `subRRCe`. -/
def dbRRCe : DB := ⟨[subRRCe], []⟩

/-- A schema-valid REPORT_READY webhook for submission 1. -/
def bodyRRCe : WebhookBody :=
  ⟨1, .REPORT_READY, some true, some 1, some ["Suspicious URL"], none, none, none, none⟩

/-- A REPORT_READY webhook with `riskScore` absent. -/
def bodyMissW : WebhookBody := ⟨1, .REPORT_READY, some true, none, none, none, none, none, none⟩

/-- Concrete submission in DISPATCHED with no prior error. -/
def subErrCe : Submission := ⟨1, 7, .email, none, .DISPATCHED, none⟩

/-- Database holding only `subErrCe`. -/
def dbErrCe : DB := ⟨[subErrCe], []⟩

/-- An ERROR webhook carrying no note. -/
def bodyErrCe : WebhookBody := ⟨1, .ERROR, none, none, none, none, none, none, none⟩

/-- An ERROR webhook carrying a note. -/
def bodyErrNoteW : WebhookBody :=
  ⟨1, .ERROR, none, none, none, none, none, some "classifier crashed", none⟩

/-- Valid report data for submission 1, used by the idempotence witness. -/
def rdW : ReportData := ⟨1, some true, some 1, some ["Suspicious URL"], none, none⟩

/-- Report data whose only segment runs from 5 back to 1 (start > end). -/
def rdBadSeg : ReportData := ⟨1, some true, some 1, none, some [⟨5, 1, none⟩], none⟩

/-! ### Helper lemmas -/

theorem find?_some_id (l : List Submission) (sid : Nat) (s : Submission)
    (h : l.find? (fun x => x.id == sid) = some s) : s.id = sid := by
  have := List.find?_some h
  simpa using this

theorem find?_map_replace (l : List Submission) (sid : Nat) (s s' : Submission)
    (h : l.find? (fun x => x.id == sid) = some s) (hid : s'.id = s.id) :
    (l.map (fun x => if x.id == s'.id then s' else x)).find? (fun x => x.id == sid)
      = some s' := by
  have hsid : s.id = sid := find?_some_id l sid s h
  induction l with
  | nil => simp at h
  | cons a t ih =>
    by_cases ha : a.id = sid
    · have hfa : a = s := by
        have := List.find?_cons_of_pos (p := fun x => x.id == sid) t (by simpa using ha)
        rw [this] at h
        exact (Option.some.injEq _ _ ▸ h).symm ▸ rfl
      subst hfa
      simp [List.find?_cons, hid, hsid, ha]
    · have hstep := List.find?_cons_of_neg (p := fun x => x.id == sid) t
        (by simpa using ha)
      rw [hstep] at h
      have hne : ¬ a.id = s'.id := by rw [hid, hsid]; exact ha
      simp only [List.map_cons]
      rw [if_neg (by simpa using hne)]
      rw [List.find?_cons_of_neg _ (by simpa using ha)]
      exact ih h

theorem find?_append_none {α : Type} (p : α → Bool) (l₁ l₂ : List α)
    (h : l₁.find? p = none) : (l₁ ++ l₂).find? p = l₂.find? p := by
  induction l₁ with
  | nil => simp
  | cons a t ih =>
    rw [List.find?_cons] at h
    cases hpa : p a with
    | true => rw [hpa] at h; cases h
    | false =>
      rw [hpa] at h
      simpa [List.find?_cons, hpa] using ih h

theorem lookup_cons_self (k : Nat) (b : List Sink) (t : Registry) :
    ((k, b) :: t).lookup k = some b := by
  simp [List.lookup]

theorem lookup_cons_ne (k v : Nat) (b : List Sink) (t : Registry) (h : v ≠ k) :
    ((k, b) :: t).lookup v = t.lookup v := by
  have hv : (v == k) = false := by simpa using h
  rw [List.lookup, hv]

theorem lookup_filterKey_ne (reg : Registry) (uid v : Nat) (h : v ≠ uid) :
    (reg.filter (fun e => e.1 != uid)).lookup v = reg.lookup v := by
  induction reg with
  | nil => rfl
  | cons e t ih =>
    obtain ⟨k, b⟩ := e
    by_cases hk : k = uid
    · subst hk
      have hv : (v == k) = false := by simpa using h
      simp [List.filter_cons, List.lookup, hv, ih]
    · by_cases hvk : v = k
      · subst hvk
        simp [List.filter_cons, List.lookup, hk]
      · simp [List.filter_cons, List.lookup, hk, hvk, ih]

theorem lookup_filterKey_self (reg : Registry) (uid : Nat) :
    (reg.filter (fun e => e.1 != uid)).lookup uid = none := by
  induction reg with
  | nil => rfl
  | cons e t ih =>
    obtain ⟨k, b⟩ := e
    by_cases hk : k = uid
    · simp [List.filter_cons, hk, ih]
    · have : (uid == k) = false := by simpa using fun hh => hk hh.symm
      simp [List.filter_cons, hk, List.lookup, this, ih]

theorem lookup_mapEntry_self (reg : Registry) (uid : Nat) (sinks sinks' : List Sink)
    (h : reg.lookup uid = some sinks) :
    (reg.map (fun e => if e.1 = uid then (uid, sinks') else e)).lookup uid
      = some sinks' := by
  induction reg with
  | nil => cases h
  | cons e t ih =>
    obtain ⟨k, b⟩ := e
    rw [List.map_cons]
    by_cases hk : k = uid
    · subst hk
      rw [if_pos rfl, lookup_cons_self]
    · have huk : uid ≠ k := fun hh => hk hh.symm
      rw [lookup_cons_ne k uid b t huk] at h
      rw [if_neg hk, lookup_cons_ne k uid b _ huk]
      exact ih h

theorem lookup_mapEntry_ne (reg : Registry) (uid v : Nat) (sinks' : List Sink)
    (h : v ≠ uid) :
    (reg.map (fun e => if e.1 = uid then (uid, sinks') else e)).lookup v
      = reg.lookup v := by
  induction reg with
  | nil => rfl
  | cons e t ih =>
    obtain ⟨k, b⟩ := e
    rw [List.map_cons]
    by_cases hk : k = uid
    · subst hk
      rw [if_pos rfl, lookup_cons_ne k v _ _ h, lookup_cons_ne k v b t h]
      exact ih
    · by_cases hvk : v = k
      · subst hvk
        rw [if_neg hk, lookup_cons_self, lookup_cons_self]
      · rw [if_neg hk, lookup_cons_ne k v _ _ hvk, lookup_cons_ne k v b t hvk]
        exact ih

theorem removeClient_lookup_ne (reg : Registry) (uid v : Nat) (s : Sink)
    (h : v ≠ uid) : (removeClient reg uid s).lookup v = reg.lookup v := by
  unfold removeClient
  cases hl : reg.lookup uid with
  | none => rfl
  | some sinks =>
    by_cases he : (sinks.filter (fun x => x != s)).isEmpty
    · simp only [he, if_pos rfl]
      exact lookup_filterKey_ne reg uid v h
    · dsimp only
      rw [if_neg he]
      exact lookup_mapEntry_ne reg uid v _ h

theorem removeClient_sinksOf (reg : Registry) (uid : Nat) (s : Sink) :
    sinksOf (removeClient reg uid s) uid = (sinksOf reg uid).filter (fun x => x != s) := by
  unfold removeClient sinksOf
  cases hl : reg.lookup uid with
  | none => simp [hl]
  | some sinks =>
    dsimp only
    by_cases he : (sinks.filter (fun x => x != s)).isEmpty
    · rw [if_pos he, lookup_filterKey_self reg uid]
      have : sinks.filter (fun x => x != s) = [] := List.isEmpty_iff.mp he
      simp [this]
    · rw [if_neg he, lookup_mapEntry_self reg uid sinks _ hl]
      rfl

theorem writeAll_out (uid : Nat) (msg : String) (l : List Sink) :
    ∀ reg : Registry, (writeAll uid msg reg l).2
      = (l.filter (fun s => !s.failing)).map (fun s => (s.sid, msg)) := by
  induction l with
  | nil => intro reg; rfl
  | cons s rest ih =>
    intro reg
    cases hf : s.failing
    · simp [writeAll, hf, ih]
    · simp [writeAll, hf, ih]

theorem writeAll_lookup_ne (uid : Nat) (msg : String) (l : List Sink) (v : Nat)
    (h : v ≠ uid) :
    ∀ reg : Registry, ((writeAll uid msg reg l).1).lookup v = reg.lookup v := by
  induction l with
  | nil => intro reg; rfl
  | cons s rest ih =>
    intro reg
    cases hf : s.failing
    · have hw : (writeAll uid msg reg (s :: rest)).1 = (writeAll uid msg reg rest).1 := by
        simp [writeAll, hf]
      rw [hw]
      exact ih reg
    · have hw : (writeAll uid msg reg (s :: rest)).1
          = (writeAll uid msg (removeClient reg uid s) rest).1 := by
        simp [writeAll, hf]
      rw [hw, ih (removeClient reg uid s), removeClient_lookup_ne reg uid v s h]

theorem writeAll_lookup_self (uid : Nat) (msg : String) (l : List Sink) :
    ∀ reg : Registry, sinksOf ((writeAll uid msg reg l).1) uid
      = (sinksOf reg uid).filter (fun x => !(l.any (fun f => f.failing && f == x))) := by
  induction l with
  | nil => intro reg; simp [writeAll]
  | cons s rest ih =>
    intro reg
    cases hf : s.failing
    · have hw : (writeAll uid msg reg (s :: rest)).1 = (writeAll uid msg reg rest).1 := by
        simp [writeAll, hf]
      rw [hw, ih reg]
      apply List.filter_congr
      intro a _
      simp [List.any_cons, hf]
    · have hw : (writeAll uid msg reg (s :: rest)).1
          = (writeAll uid msg (removeClient reg uid s) rest).1 := by
        simp [writeAll, hf]
      rw [hw, ih (removeClient reg uid s), removeClient_sinksOf reg uid s,
        List.filter_filter]
      apply List.filter_congr
      intro a _
      by_cases hx : a = s
      · subst hx; simp [hf]
      · have hsx : s ≠ a := fun hh => hx hh.symm
        have h1 : (a != s) = true := by simp [hx]
        have h2 : (s == a) = false := by simpa using hsx
        simp [hf, h1, h2]

theorem webhookParse_ok_cond (b : WebhookBody) (h : webhookParse b = .ok b) :
    (∀ r, b.riskScore = some r → 0 ≤ r ∧ r ≤ 1) ∧ webhookRefine b = true := by
  unfold webhookParse at h
  constructor
  · intro r hr
    rw [hr] at h
    by_cases hd : 0 ≤ r ∧ r ≤ 1
    · exact hd
    · simp [hd] at h
  · by_cases href : webhookRefine b = true
    · exact href
    · rw [Bool.not_eq_true] at href
      simp [href] at h

theorem webhookRefine_report_ready (b : WebhookBody) (h : webhookRefine b = true)
    (hst : b.status = .REPORT_READY) :
    ∃ sp rs, b.suspicious = some sp ∧ b.riskScore = some rs := by
  unfold webhookRefine at h
  rw [hst] at h
  simp only [Bool.and_eq_true, Option.isSome_iff_exists] at h
  obtain ⟨⟨sp, hsp⟩, rs, hrs⟩ := h
  exact ⟨sp, rs, hsp, hrs⟩

theorem createReport_ok (reports : List Report) (n : Nat) (rd : ReportData)
    (b : Bool) (r : Rat)
    (hs : rd.suspicious = some b) (hr : rd.riskScore = some r)
    (h0 : 0 ≤ r) (h1 : r ≤ 1) :
    ∃ rep reports', createReport reports n rd = .ok (rep, reports') ∧
      rep.submissionId = rd.submissionId ∧
      rep.timestamps = rd.timestamps.getD [] ∧
      rep ∈ reports' := by
  unfold createReport
  cases hfind : reports.find? (fun rc => rc.submissionId == rd.submissionId) with
  | none =>
    have hdata : reportOfData n rd
        = some { id := n, submissionId := rd.submissionId, suspicious := b, riskScore := r,
                 reasons := rd.reasons.getD [], timestamps := rd.timestamps.getD [],
                 raw := rd.raw } := by
      unfold reportOfData
      rw [hs, hr]
      dsimp only
      rw [if_pos ⟨h0, h1⟩]
    rw [hdata]
    exact ⟨_, _, rfl, rfl, rfl, by simp⟩
  | some existing =>
    have hdata : reportOfData existing.id rd
        = some { id := existing.id, submissionId := rd.submissionId, suspicious := b,
                 riskScore := r, reasons := rd.reasons.getD [],
                 timestamps := rd.timestamps.getD [], raw := rd.raw } := by
      unfold reportOfData
      rw [hs, hr]
      dsimp only
      rw [if_pos ⟨h0, h1⟩]
    dsimp only
    rw [hdata]
    refine ⟨_, _, rfl, rfl, rfl, ?_⟩
    have hmem : existing ∈ reports := List.mem_of_find?_eq_some hfind
    have := List.mem_map_of_mem
      (fun rc => if rc.id == existing.id then
        { id := existing.id, submissionId := rd.submissionId, suspicious := b,
          riskScore := r, reasons := rd.reasons.getD [],
          timestamps := rd.timestamps.getD [], raw := rd.raw } else rc) hmem
    simpa using this

theorem saveSubmission_ok (subs : List Submission) (s : Submission)
    (hv : submissionValid s = true) :
    saveSubmission subs s = .ok (subs.map (fun x => if x.id == s.id then s else x)) := by
  unfold saveSubmission
  rw [if_pos hv]

theorem saveSubmission_err (subs : List Submission) (s : Submission)
    (hv : submissionValid s = false) :
    saveSubmission subs s = .error "ValidationError" := by
  unfold saveSubmission
  rw [if_neg (by simp [hv])]

theorem submissionValid_update (sub : Submission) (st : Status) (le : Option String)
    (hst : st ∈ submissionStatusEnum) (hct : contentOk sub = true) :
    submissionValid { sub with status := st, lastError := le } = true := by
  unfold submissionValid
  have h1 : contentOk { sub with status := st, lastError := le } = contentOk sub := rfl
  rw [h1, hct, decide_eq_true hst]
  rfl

theorem submissionValid_update_notMem (sub : Submission) (st : Status) (le : Option String)
    (hst : st ∉ submissionStatusEnum) :
    submissionValid { sub with status := st, lastError := le } = false := by
  unfold submissionValid
  rw [decide_eq_false hst]
  rfl

theorem statusOf_after_save (subs : List Submission) (reports : List Report)
    (sid : Nat) (sub s' : Submission)
    (hfind : subs.find? (fun x => x.id == sid) = some sub) (hid : s'.id = sub.id) :
    statusOf ⟨subs.map (fun x => if x.id == s'.id then s' else x), reports⟩ sid
      = some s'.status := by
  unfold statusOf
  have hsid : sub.id = sid := find?_some_id subs sid sub hfind
  rw [find?_map_replace subs sid sub s' hfind hid]
  rfl

theorem lastErrorOf_after_save (subs : List Submission) (reports : List Report)
    (sid : Nat) (sub s' : Submission)
    (hfind : subs.find? (fun x => x.id == sid) = some sub) (hid : s'.id = sub.id) :
    lastErrorOf ⟨subs.map (fun x => if x.id == s'.id then s' else x), reports⟩ sid
      = some s'.lastError := by
  unfold lastErrorOf
  rw [find?_map_replace subs sid sub s' hfind hid]
  rfl

theorem jsOr_ne_empty (m : Option String) (d : String) (hd : d ≠ "") :
    jsOr m d ≠ "" := by
  unfold jsOr
  cases m with
  | none => exact hd
  | some t =>
    dsimp only
    by_cases ht : t = ""
    · rw [if_pos ht]; exact hd
    · rw [if_neg ht]; exact ht

/-! ### Claim theorems -/

/-- C1 (amended): `handleAnalysisWebhook` performs no source-state check at
all.  For an existing submission and a schema-valid payload, any webhook
status other than ANALYSIS_UPDATE is assigned unconditionally — even when
the record is already in a terminal state — and the handler answers 200
with the status overwritten; only ANALYSIS_UPDATE fails, and then not with
an InvalidTransitionError but with a 500 mongoose save error (the value is
outside the Submission status enum), the database left unchanged. -/
theorem webhook_applies_any_enum_status (db : DB) (n : Nat) (body : WebhookBody)
    (sub : Submission)
    (hfind : db.submissions.find? (fun s => s.id == body.submissionId) = some sub)
    (hparse : webhookParse body = .ok body)
    (hct : contentOk sub = true) :
    (body.status ≠ .ANALYSIS_UPDATE →
      (handleAnalysisWebhook db n body).code = 200 ∧
      statusOf (handleAnalysisWebhook db n body).db body.submissionId
        = some body.status.toStatus)
    ∧ (body.status = .ANALYSIS_UPDATE →
      (handleAnalysisWebhook db n body).code = 500 ∧
      (handleAnalysisWebhook db n body).db = db) := by
  unfold handleAnalysisWebhook
  rw [hparse]
  dsimp only
  rw [hfind]
  dsimp only
  cases hst : body.status with
  | ANALYSIS_STARTED =>
    rw [saveSubmission_ok]
    · dsimp only
      refine ⟨fun _ => ⟨rfl, ?_⟩, fun hc => by cases hc⟩
      exact statusOf_after_save db.submissions db.reports body.submissionId sub
        { sub with status := WebhookStatus.ANALYSIS_STARTED.toStatus,
                   lastError := if WebhookStatus.ANALYSIS_STARTED == WebhookStatus.ERROR
                       && truthy body.note then body.note else sub.lastError }
        hfind rfl
    · exact submissionValid_update sub _ _ (by decide) hct
  | ANALYSIS_UPDATE =>
    rw [saveSubmission_err]
    · exact ⟨fun hc => absurd rfl hc, fun _ => ⟨rfl, rfl⟩⟩
    · exact submissionValid_update_notMem sub _ _ (by decide)
  | REPORT_READY =>
    obtain ⟨hrisk, href⟩ := webhookParse_ok_cond body hparse
    obtain ⟨sp, rs, hsp, hrs⟩ := webhookRefine_report_ready body href hst
    obtain ⟨h0, h1⟩ := hrisk rs hrs
    rw [saveSubmission_ok]
    · dsimp only
      obtain ⟨rep, reports', heq, hrsub, hrts, hrmem⟩ :=
        createReport_ok db.reports n
          { submissionId := sub.id, suspicious := body.suspicious,
            riskScore := body.riskScore, reasons := body.reasons,
            timestamps := body.timestamps, raw := body.raw } sp rs hsp hrs h0 h1
      rw [heq]
      dsimp only
      refine ⟨fun _ => ⟨rfl, ?_⟩, fun hc => by cases hc⟩
      exact statusOf_after_save db.submissions reports' body.submissionId sub
        { sub with status := WebhookStatus.REPORT_READY.toStatus,
                   lastError := if WebhookStatus.REPORT_READY == WebhookStatus.ERROR
                       && truthy body.note then body.note else sub.lastError }
        hfind rfl
    · exact submissionValid_update sub _ _ (by decide) hct
  | ERROR =>
    rw [saveSubmission_ok]
    · dsimp only
      refine ⟨fun _ => ⟨rfl, ?_⟩, fun hc => by cases hc⟩
      exact statusOf_after_save db.submissions db.reports body.submissionId sub
        { sub with status := WebhookStatus.ERROR.toStatus,
                   lastError := if WebhookStatus.ERROR == WebhookStatus.ERROR
                       && truthy body.note then body.note else sub.lastError }
        hfind rfl
    · exact submissionValid_update sub _ _ (by decide) hct

/-- C1 counterexample: the stale ANALYSIS_STARTED webhook arriving after
the record reached REPORT_READY is accepted with HTTP 200 and overwrites
the status, instead of being rejected with a 409 InvalidTransitionError
that leaves the status unchanged. -/
theorem webhook_stale_transition_applied :
    (handleAnalysisWebhook dbStaleCe 0 bodyStaleCe).code = 200 ∧
    statusOf dbStaleCe 1 = some .REPORT_READY ∧
    statusOf (handleAnalysisWebhook dbStaleCe 0 bodyStaleCe).db 1
      = some .ANALYSIS_STARTED := by
  refine ⟨rfl, rfl, ?_⟩
  rfl

/-- Witness for C1 at a concrete input: the ANALYSIS_UPDATE webhook yields
a 500 and leaves the database unchanged. -/
theorem webhook_applies_any_enum_status_witness :
    (handleAnalysisWebhook dbUpdW 0 bodyUpdW).code = 500 ∧
    (handleAnalysisWebhook dbUpdW 0 bodyUpdW).db = dbUpdW :=
  (webhook_applies_any_enum_status dbUpdW 0 bodyUpdW subUpdW (by decide) rfl
    (by decide)).2 rfl

/-- C6: `sendToUser(ownerId, event, data)` writes the serialized event to
every currently registered sink of that owner whose write succeeds and to
no sink of any other owner; a sink whose write throws is removed from the
registry while every remaining sink of the same owner still receives the
event, and other owners' registry entries are untouched. -/
theorem sendToUser_fanout (reg : Registry) (uid : Nat) (event data : String) :
    (sendToUser reg uid event data).2
      = ((sinksOf reg uid).filter (fun s => !s.failing)).map
          (fun s => (s.sid, sseMessage event data))
    ∧ sinksOf (sendToUser reg uid event data).1 uid
      = (sinksOf reg uid).filter (fun s => !s.failing)
    ∧ ∀ v, v ≠ uid → ((sendToUser reg uid event data).1).lookup v = reg.lookup v := by
  unfold sendToUser
  cases hl : reg.lookup uid with
  | none =>
    refine ⟨?_, ?_, ?_⟩ <;> simp [sinksOf, hl]
  | some sinks =>
    have hsk : sinksOf reg uid = sinks := by simp [sinksOf, hl]
    refine ⟨?_, ?_, ?_⟩
    · rw [writeAll_out, hsk]
    · rw [writeAll_lookup_self, hsk]
      apply List.filter_congr
      intro a ha
      congr 1
      cases hfa : a.failing
      · apply List.any_eq_false.mpr
        intro f hfm
        by_cases hfa2 : f = a
        · subst hfa2; simp [hfa]
        · have : (f == a) = false := by simpa using hfa2
          simp [this]
      · apply List.any_eq_true.mpr
        exact ⟨a, ha, by simp [hfa]⟩
    · intro v hv
      exact writeAll_lookup_ne uid (sseMessage event data) sinks v hv reg

/-- Witness for C6 at a concrete registry with one failing sink: the entry
of owner 2 is untouched by a publish to owner 1. -/
theorem sendToUser_fanout_witness :
    ((sendToUser [(1, [⟨10, false⟩, ⟨11, true⟩, ⟨12, false⟩]), (2, [⟨20, false⟩])]
        1 "report_ready" "d").1).lookup 2
      = ([(1, [⟨10, false⟩, ⟨11, true⟩, ⟨12, false⟩]), (2, [⟨20, false⟩])] : Registry).lookup 2 :=
  (sendToUser_fanout [(1, [⟨10, false⟩, ⟨11, true⟩, ⟨12, false⟩]), (2, [⟨20, false⟩])]
    1 "report_ready" "d").2.2 2 (by decide)

/-- C2 (amended): a schema-valid REPORT_READY webhook for an existing
submission is answered 200, a Report row for that submission is upserted
and a `report_ready` event is emitted, but the persisted submission status
becomes REPORT_READY — not COMPLETED — and no report back-reference is
stored on the submission (the schema has no such path). -/
theorem webhook_report_ready_behavior (db : DB) (n : Nat) (body : WebhookBody)
    (sub : Submission)
    (hfind : db.submissions.find? (fun s => s.id == body.submissionId) = some sub)
    (hparse : webhookParse body = .ok body)
    (hst : body.status = .REPORT_READY)
    (hct : contentOk sub = true) :
    (handleAnalysisWebhook db n body).code = 200 ∧
    statusOf (handleAnalysisWebhook db n body).db body.submissionId
      = some .REPORT_READY ∧
    (∃ rep ∈ (handleAnalysisWebhook db n body).db.reports,
        rep.submissionId = body.submissionId) ∧
    (handleAnalysisWebhook db n body).events = [(sub.userId, "report_ready")] := by
  obtain ⟨hrisk, href⟩ := webhookParse_ok_cond body hparse
  obtain ⟨sp, rs, hsp, hrs⟩ := webhookRefine_report_ready body href hst
  obtain ⟨h0, h1⟩ := hrisk rs hrs
  have hsid : sub.id = body.submissionId := find?_some_id _ _ _ hfind
  unfold handleAnalysisWebhook
  rw [hparse]
  dsimp only
  rw [hfind]
  dsimp only
  rw [hst]
  rw [saveSubmission_ok]
  · dsimp only
    obtain ⟨rep, reports', heq, hrsub, hrts, hrmem⟩ :=
      createReport_ok db.reports n
        { submissionId := sub.id, suspicious := body.suspicious,
          riskScore := body.riskScore, reasons := body.reasons,
          timestamps := body.timestamps, raw := body.raw } sp rs hsp hrs h0 h1
    rw [heq]
    dsimp only
    refine ⟨rfl, ?_, ⟨rep, hrmem, ?_⟩, rfl⟩
    · exact statusOf_after_save db.submissions reports' body.submissionId sub
        { sub with status := WebhookStatus.REPORT_READY.toStatus,
                   lastError := if WebhookStatus.REPORT_READY == WebhookStatus.ERROR
                       && truthy body.note then body.note else sub.lastError }
        hfind rfl
    · rw [hrsub]; exact hsid
  · exact submissionValid_update sub _ _ (by decide) hct

/-- C2 counterexample: from ANALYSIS_STARTED, a valid REPORT_READY webhook
leaves the persisted status at REPORT_READY, which is not the COMPLETED
state the specification promises. -/
theorem webhook_report_ready_not_completed :
    statusOf (handleAnalysisWebhook dbRRCe 0 bodyRRCe).db 1 = some .REPORT_READY ∧
    ¬ statusOf (handleAnalysisWebhook dbRRCe 0 bodyRRCe).db 1 = some .COMPLETED := by
  decide

/-- Witness for C2 at a concrete input. -/
theorem webhook_report_ready_behavior_witness :
    (handleAnalysisWebhook dbRRCe 0 bodyRRCe).code = 200 ∧
    statusOf (handleAnalysisWebhook dbRRCe 0 bodyRRCe).db 1 = some .REPORT_READY ∧
    (∃ rep ∈ (handleAnalysisWebhook dbRRCe 0 bodyRRCe).db.reports,
        rep.submissionId = 1) ∧
    (handleAnalysisWebhook dbRRCe 0 bodyRRCe).events = [(7, "report_ready")] :=
  webhook_report_ready_behavior dbRRCe 0 bodyRRCe subRRCe (by decide) rfl rfl (by decide)

/-- C4: a REPORT_READY webhook in which `suspicious` or `riskScore` is
absent fails the zod schema and is answered 400 before any state change:
the database is untouched (no status change, no Report row) and no events
are emitted. -/
theorem webhook_missing_report_fields_rejected (db : DB) (n : Nat) (body : WebhookBody)
    (hst : body.status = .REPORT_READY)
    (hmiss : body.suspicious = none ∨ body.riskScore = none) :
    handleAnalysisWebhook db n body = ⟨400, db, []⟩ := by
  have hrf : webhookRefine body = false := by
    unfold webhookRefine
    rw [hst]
    rcases hmiss with h | h <;> simp [h]
  unfold handleAnalysisWebhook webhookParse
  simp [hrf]

/-- Witness for C4: a REPORT_READY webhook without `riskScore` is rejected
with 400 and the database is unchanged. -/
theorem webhook_missing_report_fields_rejected_witness :
    handleAnalysisWebhook dbRRCe 0 bodyMissW = ⟨400, dbRRCe, []⟩ :=
  webhook_missing_report_fields_rejected dbRRCe 0 bodyMissW rfl (Or.inr rfl)

/-- C9 (amended): the webhook ERROR path stores the note into `lastError`
only when the note is truthy (present and non-empty); with no note the
record enters ERROR with `lastError` unchanged — possibly still unset.
The upload-failure and analysis-failure branches of `handleFileSubmission`
always store a non-empty `lastError`, and no handler branch clears an
existing value. -/
theorem webhook_error_lastError_behavior (db : DB) (n : Nat) (body : WebhookBody)
    (sub : Submission)
    (hfind : db.submissions.find? (fun s => s.id == body.submissionId) = some sub)
    (hparse : webhookParse body = .ok body)
    (hst : body.status = .ERROR)
    (hct : contentOk sub = true) :
    (statusOf (handleAnalysisWebhook db n body).db body.submissionId = some .ERROR ∧
     lastErrorOf (handleAnalysisWebhook db n body).db body.submissionId
       = some (if truthy body.note then body.note else sub.lastError))
    ∧ (∀ s m, ∃ e, (uploadFailUpdate s m).lastError = some e ∧ e ≠ "")
    ∧ (∀ s m, ∃ e, (aiFileFailUpdate s m).lastError = some e ∧ e ≠ "") := by
  refine ⟨?_, ?_, ?_⟩
  · unfold handleAnalysisWebhook
    rw [hparse]
    dsimp only
    rw [hfind]
    dsimp only
    rw [hst]
    rw [saveSubmission_ok]
    · dsimp only
      constructor
      · exact statusOf_after_save db.submissions db.reports body.submissionId sub
          { sub with status := WebhookStatus.ERROR.toStatus,
                     lastError := if WebhookStatus.ERROR == WebhookStatus.ERROR
                         && truthy body.note then body.note else sub.lastError }
          hfind rfl
      · exact lastErrorOf_after_save db.submissions db.reports body.submissionId sub
          { sub with status := WebhookStatus.ERROR.toStatus,
                     lastError := if WebhookStatus.ERROR == WebhookStatus.ERROR
                         && truthy body.note then body.note else sub.lastError }
          hfind rfl
    · exact submissionValid_update sub _ _ (by decide) hct
  · intro s m
    exact ⟨jsOr m "S3 upload failed", rfl, jsOr_ne_empty m _ (by decide)⟩
  · intro s m
    exact ⟨jsOr m "Failed to analyze file with AI service", rfl,
      jsOr_ne_empty m _ (by decide)⟩

/-- C9 counterexample: an ERROR webhook with no note moves the record into
ERROR while `lastError` stays unset, contradicting the claim that every
transition into ERROR sets a non-empty `lastError`. -/
theorem webhook_error_without_note :
    statusOf (handleAnalysisWebhook dbErrCe 0 bodyErrCe).db 1 = some .ERROR ∧
    lastErrorOf (handleAnalysisWebhook dbErrCe 0 bodyErrCe).db 1 = some none := by
  decide

/-- Witness for C9 at a concrete input with a note present. -/
theorem webhook_error_lastError_behavior_witness :
    lastErrorOf (handleAnalysisWebhook dbErrCe 0 bodyErrNoteW).db 1
      = some (if truthy bodyErrNoteW.note then bodyErrNoteW.note
              else subErrCe.lastError) :=
  (webhook_error_lastError_behavior dbErrCe 0 bodyErrNoteW subErrCe (by decide) rfl rfl
    (by decide)).1.2

/-- C5: report creation is an idempotent upsert.  Starting from a store
with no report for the submission and a fresh row id, the first
`createReport` inserts one row; repeating the call with identical data is
an in-place update that returns the same row and leaves the store
unchanged, and the store then holds exactly one report for that
submission, equal to the single-invocation result. -/
theorem createReport_idempotent (reports : List Report) (n1 n2 : Nat) (rd : ReportData)
    (b : Bool) (r : Rat)
    (hs : rd.suspicious = some b) (hr : rd.riskScore = some r)
    (h0 : 0 ≤ r) (h1 : r ≤ 1)
    (hfresh : reports.find? (fun rc => rc.submissionId == rd.submissionId) = none)
    (hids : ∀ rc ∈ reports, rc.id ≠ n1) :
    ∃ rep, createReport reports n1 rd = .ok (rep, reports ++ [rep]) ∧
      createReport (reports ++ [rep]) n2 rd = .ok (rep, reports ++ [rep]) ∧
      (reports ++ [rep]).filter (fun rc => rc.submissionId == rd.submissionId) = [rep] := by
  have hdata : reportOfData n1 rd = some (mkReport n1 rd b r) := by
    unfold reportOfData mkReport
    rw [hs, hr]
    dsimp only
    rw [if_pos ⟨h0, h1⟩]
  refine ⟨mkReport n1 rd b r, ?_, ?_, ?_⟩
  · unfold createReport
    rw [hfresh]
    dsimp only
    rw [hdata]
  · unfold createReport
    rw [find?_append_none _ _ _ hfresh]
    have hfind1 : ([mkReport n1 rd b r]).find? (fun rc => rc.submissionId == rd.submissionId)
        = some (mkReport n1 rd b r) := by
      simp [List.find?, mkReport]
    rw [hfind1]
    dsimp only
    have hdata2 : reportOfData (mkReport n1 rd b r).id rd = some (mkReport n1 rd b r) :=
      hdata
    rw [hdata2]
    dsimp only
    rw [List.map_append]
    have hmap1 : reports.map (fun rc =>
        if rc.id == (mkReport n1 rd b r).id then mkReport n1 rd b r else rc) = reports := by
      conv_rhs => rw [show reports = reports.map id from (List.map_id reports).symm]
      apply List.map_congr_left
      intro a ha
      have hne : (a.id == (mkReport n1 rd b r).id) = false := by
        simpa [mkReport] using hids a ha
      rw [hne]
      rfl
    rw [hmap1]
    have hmap2 : ([mkReport n1 rd b r]).map (fun rc =>
        if rc.id == (mkReport n1 rd b r).id then mkReport n1 rd b r else rc)
        = [mkReport n1 rd b r] := by
      simp
    rw [hmap2]
  · rw [List.filter_append]
    have hnil : reports.filter (fun rc => rc.submissionId == rd.submissionId) = [] := by
      apply List.filter_eq_nil_iff.mpr
      intro a ha
      have := List.find?_eq_none.mp hfresh a ha
      simpa using this
    rw [hnil]
    simp [List.filter, mkReport]

/-- Witness for C5 at a concrete input. -/
theorem createReport_idempotent_witness :
    ∃ rep, createReport [] 5 rdW = .ok (rep, [] ++ [rep]) ∧
      createReport ([] ++ [rep]) 6 rdW = .ok (rep, [] ++ [rep]) ∧
      ([] ++ [rep]).filter (fun rc => rc.submissionId == rdW.submissionId) = [rep] :=
  createReport_idempotent [] 5 6 rdW true 1 rfl rfl (by decide) (by decide) rfl
    (by intro rc hrc; cases hrc)

/-- C10: a validating Submission save succeeds only when the status lies in
the seven-value schema enum; the statuses QUEUED, ANALYSIS_UPDATE,
COMPLETED and PROCESSING, all assigned by controller code, are outside the
enum, so a validating save of a record carrying one of them always raises
a ValidationError. -/
theorem submission_enum_gate (subs : List Submission) (s : Submission) :
    ((saveSubmission subs s).isOk = true → s.status ∈ submissionStatusEnum)
    ∧ (s.status = .QUEUED ∨ s.status = .ANALYSIS_UPDATE ∨ s.status = .COMPLETED ∨
        s.status = .PROCESSING →
        saveSubmission subs s = .error "ValidationError") := by
  constructor
  · intro h
    unfold saveSubmission at h
    by_cases hv : submissionValid s = true
    · unfold submissionValid at hv
      simp only [Bool.and_eq_true, decide_eq_true_eq] at hv
      exact hv.1
    · rw [if_neg (by simpa using hv)] at h
      simp [Except.isOk, Except.toBool] at h
  · intro hmem
    apply saveSubmission_err
    unfold submissionValid
    have hnot : s.status ∉ submissionStatusEnum := by
      rcases hmem with h | h | h | h <;> rw [h] <;> decide
    rw [decide_eq_false hnot]
    rfl

/-- Witness for C10: saving a QUEUED submission with validation fails. -/
theorem submission_enum_gate_witness :
    saveSubmission [] ⟨1, 7, .email, none, .QUEUED, none⟩ = .error "ValidationError" :=
  (submission_enum_gate [] ⟨1, 7, .email, none, .QUEUED, none⟩).2 (Or.inl rfl)

/-- C7 (amended): for file submissions that upload successfully the HTTP
response strictly precedes the classifier call, and a failed upload
performs no classifier call at all; for text submissions the classifier
call is awaited before the response is sent, so the initial response of
the text path is delayed by classification. -/
theorem response_vs_classifier_order (aiOk : Bool) :
    (handleFileSubmissionTrace true aiOk).findIdx isRespond
      < (handleFileSubmissionTrace true aiOk).findIdx isClassify
    ∧ (handleFileSubmissionTrace false aiOk).all (fun a => !(isClassify a)) = true
    ∧ (handleTextSubmissionTrace aiOk).findIdx isClassify
      < (handleTextSubmissionTrace aiOk).findIdx isRespond := by
  cases aiOk <;> exact ⟨by decide, by decide, by decide⟩

/-- C7 counterexample: in the text-submission handler the awaited
classifier call comes strictly before the HTTP response, so the initial
response is delayed by classification, contrary to the claim that every
submission responds before classifying. -/
theorem text_response_after_classifier :
    (handleTextSubmissionTrace true).findIdx isClassify
      < (handleTextSubmissionTrace true).findIdx isRespond := by
  decide

/-- C8 (amended): report validation checks only the presence of
`suspicious` and a `riskScore` in `[0, 1]`; it never compares the start of
a segment with its end, so a report carrying any list of segments — including
one with start > end — validates and is stored with exactly that list. -/
theorem segments_not_validated (n : Nat) (rd : ReportData) (b : Bool) (r : Rat)
    (hs : rd.suspicious = some b) (hr : rd.riskScore = some r)
    (h0 : 0 ≤ r) (h1 : r ≤ 1) :
    ∃ rep, reportOfData n rd = some rep ∧ rep.timestamps = rd.timestamps.getD [] := by
  unfold reportOfData
  rw [hs, hr]
  dsimp only
  rw [if_pos ⟨h0, h1⟩]
  exact ⟨_, rfl, rfl⟩

/-- Witness for C8: report data whose only segment has start 5 and end 1
still validates, keeping that segment. -/
theorem segments_not_validated_witness :
    ∃ rep, reportOfData 0 rdBadSeg = some rep ∧
      rep.timestamps = rdBadSeg.timestamps.getD [] :=
  segments_not_validated 0 rdBadSeg true 1 rfl rfl (by decide) (by decide)

/-- C8 counterexample: `createReport` persists a report whose only segment
runs from 5 to 1 even though 5 > 1; no validation step rejects it. -/
theorem segment_start_gt_end_persisted :
    createReport [] 0 rdBadSeg
      = .ok (⟨0, 1, true, 1, [], [⟨5, 1, none⟩], none⟩,
             [⟨0, 1, true, 1, [], [⟨5, 1, none⟩], none⟩]) ∧
    (1 : ℚ) < 5 := by
  exact ⟨rfl, by decide⟩

/-- C3 (amended): the signature middleware rejects a missing X-Signature
header with a 401 `missing` result and otherwise authorizes exactly when
the computed HMAC hex digest equals the header value stripped of its
`sha256=` tag; the comparison is ordinary short-circuiting string
equality, not a constant-time compare. -/
theorem verify_signature_behavior (hmacHex : String → String) (body : String)
    (sig : Option String) :
    (sig = none → verifyWebhookSignatureWith hmacHex body sig = .missing)
    ∧ (∀ t, sig = some t →
        (verifyWebhookSignatureWith hmacHex body sig = .authorized
          ↔ hmacHex body = stripSigTag t)
        ∧ (verifyWebhookSignatureWith hmacHex body sig = .invalid
          ↔ hmacHex body ≠ stripSigTag t)) := by
  constructor
  · intro h; rw [h]; rfl
  · intro t ht
    rw [ht]
    unfold verifyWebhookSignatureWith
    dsimp only
    by_cases hc : hmacHex body = stripSigTag t
    · rw [if_pos hc]
      constructor
      · simp [hc]
      · simp [hc]
    · rw [if_neg hc]
      constructor
      · simp [hc]
      · simp [hc]

/-- Witness for C3: a header carrying exactly the tagged digest is
authorized. -/
theorem verify_signature_behavior_witness :
    verifyWebhookSignatureWith (fun _ => "aa") "b" (some "sha256=aa") = .authorized :=
  ((verify_signature_behavior (fun _ => "aa") "b" (some "sha256=aa")).2 "sha256=aa"
    rfl).1.mpr (by decide)

/-- C3 counterexample: two forged signatures of equal length are both
rejected, yet the digest comparison performs a different number of
character comparisons depending on where the first difference lies — the
comparison running time depends on the position of the first differing
byte, so it is not constant-time. -/
theorem signature_compare_not_constant_time :
    verifyWebhookSignatureWith (fun _ => "abcd") "payload" (some "xbcd") = .invalid ∧
    verifyWebhookSignatureWith (fun _ => "abcd") "payload" (some "abcx") = .invalid ∧
    ("xbcd" : String).length = ("abcx" : String).length ∧
    compareCost "abcd" "xbcd" = 1 ∧ compareCost "abcd" "abcx" = 4 := by
  exact ⟨by decide, by decide, by decide, by decide, by decide⟩

end Sentinel
